import Mathlib

/-
Verification of the bingo debugger core against its specification.

The development shallowly embeds the tracing engine (breakpoint table,
memory rewriting, the step-over sequence, trap-stop command dispatch),
the target-path validator, the session multiplexer (hub) event loop,
the session registry, and the WebSocket attach handler, as executable
Lean definitions translated from the Go sources, and proves or refutes
the specified properties about them.

Source files embedded:
  internal/debugger/debugger.go  (SetBreakpoint, ClearBreakpoint,
                                  Continue, breakpointHit, StartWithDebug)
  internal/debuginfo/debug_info_linux.go (NewDebugInfo)
  internal/ws/hub.go             (Run, shutdown, broadcast, Unregister)
  internal/ws/server.go          (CreateHub, getOrCreateSession)
-/

/-! ## Tracing engine: memory and the breakpoint table

Target memory is a byte store indexed by address; the breakpoint table
maps a pc to the saved original instruction bytes (Go:
`Breakpoints map[uint64][]byte`; an absent key reads as the zero value
`nil`, modelled by `Option.getD _ []`). -/

/-- The one-byte trap instruction written over code memory
(Go: `bpCode = []byte{0xCC}`). -/
def bpCode : List Nat := [0xCC]

/-- The debug-info oracle as consumed by the engine:
`Target.Path` (the main source file path fixed at construction),
`LineToPC` (fails with a line-unmapped error, modelled by `none`) and
`PCToLine` (total; returns file, line and function name). -/
structure DebugInfo where
  targetPath : String
  lineToPC : String → Nat → Option Nat
  pcToLine : Nat → String × Nat × String

/-- The engine state the breakpoint operations touch: the target's
memory image and the breakpoint table. -/
structure DbgState where
  mem : Nat → Nat
  bps : Nat → Option (List Nat)

/-- Read `n` bytes of target memory starting at `addr`
(Go: `syscall.PtracePeekData`; modelled as always succeeding). -/
def readMem (m : Nat → Nat) : Nat → Nat → List Nat
  | _, 0 => []
  | addr, n + 1 => m addr :: readMem m (addr + 1) n

/-- Write a byte vector into target memory at `addr`
(Go: `syscall.PtracePokeData`; modelled as always succeeding; an empty
vector writes nothing). -/
def writeMem : (Nat → Nat) → Nat → List Nat → (Nat → Nat)
  | m, _, [] => m
  | m, addr, x :: xs => writeMem (fun a => if a = addr then x else m a) (addr + 1) xs

/-- Go map update `d.Breakpoints[pc] = v`. -/
def updateBps (t : Nat → Option (List Nat)) (pc : Nat) (v : List Nat) :
    Nat → Option (List Nat) :=
  fun a => if a = pc then some v else t a

/-- Outcome of an engine operation: a new state, or a Go `panic`
(the cited sources panic when `LineToPC` fails). -/
inductive MemResult where
  | ok (s : DbgState)
  | panicked

/-- Sequencing of engine operations; a panic aborts the sequence. -/
def andThen : MemResult → (DbgState → MemResult) → MemResult
  | .ok s, f => f s
  | .panicked, _ => .panicked

/-- `SetBreakpoint` from internal/debugger/debugger.go lines 201-218:
resolve the pc via `LineToPC(Target.Path, line)` (panicking on failure),
read one byte at the pc, overwrite it with the trap byte, and store the
byte that was read as the saved original.  Note the read-then-store is
unconditional: there is no check whether the pc is already armed. -/
def setBreakpoint (di : DebugInfo) (line : Nat) (s : DbgState) : MemResult :=
  match di.lineToPC di.targetPath line with
  | none => .panicked
  | some pc =>
      MemResult.ok
        { mem := writeMem s.mem pc bpCode
          bps := updateBps s.bps pc (readMem s.mem pc bpCode.length) }

/-- `ClearBreakpoint` from internal/debugger/debugger.go lines 220-231:
resolve the pc via `LineToPC(Target.Path, line)` (panicking on failure)
and write `Breakpoints[pc]` back into memory.  Note the table entry is
never deleted, and nothing checks that the pc is armed: an absent key
yields the nil slice, whose write is a no-op. -/
def clearBreakpoint (di : DebugInfo) (line : Nat) (s : DbgState) : MemResult :=
  match di.lineToPC di.targetPath line with
  | none => .panicked
  | some pc =>
      MemResult.ok
        { mem := writeMem s.mem pc ((s.bps pc).getD [])
          bps := s.bps }

/-- The step-over sequence of `Continue` from internal/debugger/debugger.go
lines 122-174, as it affects memory and the breakpoint table: resolve the
source line of `PC - 1`, clear the breakpoint there (restoring the saved
byte), then re-arm it with `SetBreakpoint`.  The register rewind, the
single-instruction step and the final continue do not touch the table or
the code byte at the breakpoint address and are elided; the code panics
when either table operation fails. -/
def continueFromStop (di : DebugInfo) (s : DbgState) (rip : Nat) : MemResult :=
  andThen (clearBreakpoint di (di.pcToLine (rip - 1)).2.1 s)
    (fun s1 => setBreakpoint di (di.pcToLine (rip - 1)).2.1 s1)

/-- Breakpoint table of an `ok` result, observed at one address. -/
def okBps : MemResult → Nat → Option (Option (List Nat))
  | .ok s, a => some (s.bps a)
  | .panicked, _ => none

/-- Memory of an `ok` result, observed at one address. -/
def okMem : MemResult → Nat → Option Nat
  | .ok s, a => some (s.mem a)
  | .panicked, _ => none

/-- Whether an operation returned without panicking. -/
def isOk : MemResult → Bool
  | .ok _ => true
  | .panicked => false

/-- A concrete debug-info oracle: source file "m.go", line 9 maps to
pc 100, function main.main; every other line is unmapped. -/
def di0 : DebugInfo where
  targetPath := "m.go"
  lineToPC := fun f l => if f = "m.go" ∧ l = 9 then some 100 else none
  pcToLine := fun pc => if pc = 100 then ("m.go", 9, "main.main") else ("", 0, "")

/-- A concrete initial state: original byte 0x55 at pc 100, nothing armed. -/
def s0 : DbgState where
  mem := fun a => if a = 100 then 0x55 else 0x90
  bps := fun _ => none

/-- A concrete trap-stopped state: pc 100 armed with saved original 0x55,
the trap byte in memory at 100. -/
def s1c : DbgState where
  mem := fun a => if a = 100 then 0xCC else 0x90
  bps := fun a => if a = 100 then some [0x55] else none

/-- C1: the claim fails on the code.  Arming line 9 (pc 100, original
byte 0x55) once records saved bytes [0x55]; arming it a second time
re-reads the byte at pc 100 - now the trap byte - and overwrites the
table entry with [0xCC].  The saved original is therefore not preserved
and is overwritten with the trap byte, contradicting the idempotency
claim. -/
theorem setBreakpoint_rearm_overwrites_saved :
    s0.mem 100 = 0x55 ∧
    okBps (setBreakpoint di0 9 s0) 100 = some (some [0x55]) ∧
    okBps (andThen (setBreakpoint di0 9 s0) (setBreakpoint di0 9)) 100 =
      some (some [0xCC]) := by
  decide

/-- C3: the claim fails on the code.  After arming line 9 and then
clearing it, the saved byte is written back to memory (0x55 restored at
pc 100) but the table entry for pc 100 is still present; clearing a pc
that was never armed succeeds silently (writing the nil saved slice)
instead of failing with a not-armed error; and clearing an unmapped line
panics instead of returning a line-unmapped error. -/
theorem clearBreakpoint_keeps_entry_and_ignores_unarmed :
    okMem (andThen (setBreakpoint di0 9 s0) (clearBreakpoint di0 9)) 100 =
      some 0x55 ∧
    okBps (andThen (setBreakpoint di0 9 s0) (clearBreakpoint di0 9)) 100 =
      some (some [0x55]) ∧
    s0.bps 100 = none ∧
    isOk (clearBreakpoint di0 9 s0) = true ∧
    okMem (clearBreakpoint di0 9 s0) 100 = some 0x55 ∧
    isOk (clearBreakpoint di0 7 s0) = false := by
  decide

/-- C4: running the step-over sequence from a trap stop at rip = b + 1,
where b is armed with saved original byte v, leaves the breakpoint table
entry at b identical to before: the clear writes v back (without
deleting the entry), and the re-arm reads that very byte again and
stores it, so the table again maps b to [v]. -/
theorem continueFromStop_keeps_table_entry (di : DebugInfo) (s : DbgState)
    (b pc2 v : Nat) (hbps : s.bps b = some [v])
    (hres : di.lineToPC di.targetPath (di.pcToLine b).2.1 = some pc2) :
    ∃ s2, continueFromStop di s (b + 1) = MemResult.ok s2 ∧
      s2.bps b = some [v] := by
  unfold continueFromStop clearBreakpoint setBreakpoint
  simp only [Nat.add_sub_cancel, hres, andThen]
  by_cases hb : b = pc2
  · subst hb
    refine ⟨_, rfl, ?_⟩
    simp [updateBps, readMem, writeMem, bpCode, hbps]
  · refine ⟨_, rfl, ?_⟩
    simp [updateBps, hb, hbps]

/-- Witness for C4 at the concrete trap-stopped state: pc 100 armed with
saved byte 0x55, rip 101. -/
theorem continueFromStop_keeps_table_entry_witness :
    s1c.bps 100 = some [0x55] ∧
    ∃ s2, continueFromStop di0 s1c (100 + 1) = MemResult.ok s2 ∧
      s2.bps 100 = some [0x55] :=
  ⟨by decide,
   continueFromStop_keeps_table_entry di0 s1c 100 100 0x55 (by decide) (by decide)⟩

/-! ## Target-path validation and launch (claim C2)

`StartWithDebug` in internal/debugger/debugger.go lines 62-115 builds
`exec.Command(path)` and calls `cmd.Start()` as its very first effect;
no validation of any kind precedes the spawn attempt, and every setup
failure panics.  The repository's own validator `validateTargetPath`
(present in the newer debugger variant and exercised by
internal/debugger/debugger_test.go) is embedded below over an abstract
file-system model. -/

/-- Abstract file system: working directory, path resolution
(`filepath.Abs(filepath.Clean(path))`), and the `os.Stat` facts the
validator inspects. -/
structure FSModel where
  cwd : String
  absClean : String → String
  present : String → Bool
  regular : String → Bool
  execBit : String → Bool

/-- Character-list prefix test (Go: `strings.HasPrefix`). -/
def charsLead : List Char → List Char → Bool
  | [], _ => true
  | _ :: _, [] => false
  | a :: as, b :: bs => a == b && charsLead as bs

/-- `strings.HasPrefix s pre` over the abstract strings. -/
def strHasLead (pre s : String) : Bool :=
  charsLead pre.data s.data

/-- `validateTargetPath` as the repository defines and tests it: resolve
to an absolute clean path, require it inside the working directory
(prefix of cwd plus separator), then require a present, regular,
executable file, in that order. -/
def validateTargetPath (fs : FSModel) (path : String) : Except String String :=
  let abs := fs.absClean path
  if strHasLead (fs.cwd ++ "/") abs = false then
    Except.error "target path is outside the working directory"
  else if fs.present abs = false then
    Except.error "target path not accessible"
  else if fs.regular abs = false then
    Except.error "target path is not a regular file"
  else if fs.execBit abs = false then
    Except.error "target path is not executable"
  else
    Except.ok abs

/-- Observable setup effects of the engine's start operation. -/
inductive StartAction where
  | validatePath (path : String)
  | spawnTarget (path : String)
deriving DecidableEq

/-- The effect sequence at the head of `StartWithDebug`
(internal/debugger/debugger.go lines 62-74): the raw user-supplied path
goes straight to `exec.Command(path)` / `cmd.Start()`; no validation
step exists in the function. -/
def startWithDebugLaunchSeq (path : String) : List StartAction :=
  [StartAction.spawnTarget path]

/-- File-system model for the boundary scenario: working directory
/workspaces/bingo; /etc/passwd resolves to itself, exists, is regular
and is not executable. -/
def fs0 : FSModel where
  cwd := "/workspaces/bingo"
  absClean := fun p => p
  present := fun _ => true
  regular := fun _ => true
  execBit := fun _ => false

/-- C2: the claim fails on the cited code.  The repository's validator
rejects /etc/passwd (outside the working directory), yet `StartWithDebug`
performs no validation step at all and its first effect is the spawn
attempt on the raw path, so launching with /etc/passwd attempts to spawn
the target rather than returning a rejection with no spawn. -/
theorem startWithDebug_spawns_unvalidated_path :
    validateTargetPath fs0 "/etc/passwd" =
      Except.error "target path is outside the working directory" ∧
    startWithDebugLaunchSeq "/etc/passwd" =
      [StartAction.spawnTarget "/etc/passwd"] ∧
    StartAction.validatePath "/etc/passwd" ∉
      startWithDebugLaunchSeq "/etc/passwd" ∧
    StartAction.spawnTarget "/etc/passwd" ∈
      startWithDebugLaunchSeq "/etc/passwd" :=
  ⟨rfl, rfl, by decide, by decide⟩

/-! ## Trap-stop command dispatch (claim C5)

`breakpointHit` in internal/debugger/debugger.go lines 347-402 emits the
breakpoint-hit event and then performs a single `select` on the command
channel and the end-of-session channel.  The dispatch below records the
engine actions each arm performs. -/

/-- A decoded command at a trap stop (the `DebugCommand.Type` values). -/
inductive TrapCmd where
  | cont
  | step
  | setBp (filename : String) (line : Nat)
  | quit
  | unknown (s : String)
deriving DecidableEq

/-- What wakes the trap handler: a command, or the end-of-session signal. -/
inductive TrapWake where
  | cmd (c : TrapCmd)
  | endSession
deriving DecidableEq

/-- Engine actions performed by the dispatch. -/
inductive EngineAction where
  | runStepOver
  | singleStep
  | armBp (line : Nat)
  | stopDebug
deriving DecidableEq

/-- The dispatch of `breakpointHit` (debugger.go lines 371-401), arm by
arm: continue runs the step-over sequence `d.Continue(pid)`; step runs
`d.SingleStep(pid)`; setBreakpoint runs `d.SetBreakpoint(line)` and then
- despite the adjacent comment saying it keeps waiting - runs
`d.Continue(pid)`, resuming the target; quit runs `d.StopDebug()` and
returns; end-of-session returns with no action; any unrecognized command
defaults to `d.Continue(pid)`.  The handler returns after every arm. -/
def breakpointHitDispatch : TrapWake → List EngineAction
  | .cmd .cont => [.runStepOver]
  | .cmd .step => [.singleStep]
  | .cmd (.setBp _ line) => [.armBp line, .runStepOver]
  | .cmd .quit => [.stopDebug]
  | .cmd (.unknown _) => [.runStepOver]
  | .endSession => []

/-- C5: the claim fails on the code at the setBreakpoint arm.  All other
arms behave as claimed (continue runs the step-over sequence, step
single-steps, quit stops, end-of-session does nothing, unknown defaults
to continue), but setBreakpoint arms the breakpoint and then resumes the
target through the step-over sequence instead of waiting for another
command. -/
theorem breakpointHit_setBp_resumes_target :
    breakpointHitDispatch (TrapWake.cmd (TrapCmd.setBp "m.go" 9)) =
      [EngineAction.armBp 9, EngineAction.runStepOver] ∧
    EngineAction.runStepOver ∈
      breakpointHitDispatch (TrapWake.cmd (TrapCmd.setBp "m.go" 9)) ∧
    breakpointHitDispatch (TrapWake.cmd TrapCmd.cont) =
      [EngineAction.runStepOver] ∧
    breakpointHitDispatch (TrapWake.cmd TrapCmd.step) =
      [EngineAction.singleStep] ∧
    breakpointHitDispatch (TrapWake.cmd TrapCmd.quit) =
      [EngineAction.stopDebug] ∧
    breakpointHitDispatch TrapWake.endSession = [] ∧
    breakpointHitDispatch (TrapWake.cmd (TrapCmd.unknown "zzz")) =
      [EngineAction.runStepOver] := by
  decide

/-! ## Session multiplexer event loop (claims C6 and C8)

`Hub.Run` in internal/ws/hub.go lines 54-126 selects among the ticker,
the register and unregister channels, the event channel, the command
channel and the debugger's end-of-session channel.  `shutdown` (lines
145-149) merely invokes the callback: it has no once-guard.  The idle
and last-client-unregister arms `return` after calling `shutdown`; the
end-of-session arm (lines 121-124) does not. -/

/-- Hub loop state: attached endpoint ids, how many times `shutdown` has
run, and whether `Run` has returned. -/
structure HubModel where
  connections : List String
  shutdownRuns : Nat
  terminated : Bool
deriving DecidableEq

/-- One wake-up of the `Run` select: a ticker tick that finds the idle
condition satisfied, a register, an unregister, a broadcast-ready event,
or the debugger's end-of-session signal.  (The command arm does not
touch the endpoint set or shutdown and is elided.) -/
inductive HubInput where
  | tickIdle
  | register (c : String)
  | unregister (c : String)
  | event (m : String)
  | endSession
deriving DecidableEq

/-- One iteration of `Hub.Run` (hub.go lines 63-125), paired with the
deliveries this iteration pushes into endpoint queues.  When `Run` has
returned no further iteration occurs.  The end-of-session arm runs
`shutdown` but, unlike the idle and last-unregister arms, does not
terminate the loop - exactly as in the source, which lacks a `return`
there. -/
def hubStep (s : HubModel) (i : HubInput) : HubModel × List (String × String) :=
  if s.terminated then (s, [])
  else
    match i with
    | .tickIdle =>
        if s.connections.isEmpty then
          ({ s with shutdownRuns := s.shutdownRuns + 1, terminated := true }, [])
        else (s, [])
    | .register c => ({ s with connections := s.connections ++ [c] }, [])
    | .unregister c =>
        if s.connections.contains c then
          let conns := s.connections.erase c
          if conns.isEmpty then
            (⟨conns, s.shutdownRuns + 1, true⟩, [])
          else ({ s with connections := conns }, [])
        else (s, [])
    | .event m => (s, s.connections.map (fun c => (c, m)))
    | .endSession => ({ s with shutdownRuns := s.shutdownRuns + 1 }, [])

/-- Run the hub loop over a sequence of wake-ups, collecting deliveries. -/
def hubRun (s : HubModel) : List HubInput → HubModel × List (String × String)
  | [] => (s, [])
  | i :: is =>
      let p := hubStep s i
      let q := hubRun p.1 is
      (q.1, p.2 ++ q.2)

/-- C6: the claim fails on the code.  With one endpoint attached, the
trace end-of-session-then-event runs shutdown once and then still
broadcasts the event to the endpoint (the loop did not terminate), so an
event is broadcast after shutdown has run; and the trace with two
end-of-session signals runs shutdown twice. -/
theorem hubRun_shutdown_not_once :
    hubRun ⟨["A"], 0, false⟩ [HubInput.endSession, HubInput.event "e"] =
      (⟨["A"], 1, false⟩, [("A", "e")]) ∧
    (hubRun ⟨["A"], 0, false⟩ [HubInput.endSession, HubInput.endSession]).1.shutdownRuns
      = 2 := by
  decide

/-! ## Broadcast and slow-peer eviction (claim C8)

The event arm of `Hub.Run` (hub.go lines 100-115) pushes the event into
each endpoint's buffered `send` channel through a `select` with a
`default` arm - a zero-wait push that drops to the slow list when the
queue is full - and then, for each slow endpoint, calls
`h.Unregister(connection)` (line 114), which is a plain send on the
unbuffered `unregister` channel (hub.go lines 44, 133-135).  The only
receiver of that channel is the select of this very `Run` loop (line
82), which cannot execute while the loop is inside the event arm, so the
send never completes and the loop blocks permanently. -/

/-- An endpoint with its bounded outbound queue
(capacity `clientSendBufferSize`, reference 256). -/
structure ConnModel where
  id : String
  cap : Nat
  queue : List String
deriving DecidableEq

/-- The zero-wait push (`select`/`default`): enqueue when there is room,
otherwise leave the queue untouched; it never blocks. -/
def pushNoWait (m : String) (c : ConnModel) : ConnModel :=
  if c.queue.length < c.cap then { c with queue := c.queue ++ [m] } else c

/-- Outcome of one event-arm iteration: either the loop reaches its
select again, or it is blocked forever in `h.Unregister`, sending a slow
endpoint on its own unbuffered unregister channel. -/
inductive BroadcastOutcome where
  | done (conns : List ConnModel)
  | blockedOnUnregister (conns : List ConnModel) (slowId : String)
deriving DecidableEq

/-- The event arm of `Hub.Run`: push the event to every endpoint with
zero wait, collect the endpoints whose queue was full, then attempt
`h.Unregister` on the first slow endpoint - which blocks the loop
permanently, leaving the endpoint set unchanged, because the sole
receiver of the unbuffered channel is this same loop. -/
def hubBroadcast (conns : List ConnModel) (m : String) : BroadcastOutcome :=
  let pushed := conns.map (pushNoWait m)
  let slow := conns.filter (fun c => decide (c.cap ≤ c.queue.length))
  match slow with
  | [] => .done pushed
  | c :: _ => .blockedOnUnregister pushed c.id

/-- Whether the loop survives the iteration to process further events. -/
def broadcastContinues : BroadcastOutcome → Bool
  | .done _ => true
  | .blockedOnUnregister _ _ => false

/-- C8: the claim fails on the code.  With endpoint A (queue empty) and
endpoint B (queue at capacity 2), broadcasting an event pushes it to A
with zero wait and leaves B's queue untouched (the push itself never
blocks, as claimed), but the eviction attempt blocks the loop forever on
the unbuffered unregister channel: B remains attached and no endpoint -
A included - can receive any subsequent event. -/
theorem hubBroadcast_eviction_blocks :
    hubBroadcast [⟨"A", 2, []⟩, ⟨"B", 2, ["m1", "m2"]⟩] "e" =
      BroadcastOutcome.blockedOnUnregister
        [⟨"A", 2, ["e"]⟩, ⟨"B", 2, ["m1", "m2"]⟩] "B" ∧
    pushNoWait "e" ⟨"B", 2, ["m1", "m2"]⟩ = ⟨"B", 2, ["m1", "m2"]⟩ ∧
    broadcastContinues
      (hubBroadcast [⟨"A", 2, []⟩, ⟨"B", 2, ["m1", "m2"]⟩] "e") = false := by
  decide

/-! ## Session registry (claim C7)

`Server.CreateHub` in internal/ws/server.go lines 138-161: under the
registry lock, fail when the identifier already exists; fail when
`MaxSessions > 0` and the map has reached it; otherwise insert the new
session.  The registry is modelled by its list of identifiers. -/

/-- Session-registry creation errors. -/
inductive CreateErr where
  | duplicate
  | capacity
deriving DecidableEq

/-- `CreateHub`: duplicate check first, then the capacity check
(`MaxSessions > 0 && len(hubs) >= MaxSessions`), then insertion.
A non-positive configured maximum (modelled by 0) disables the check. -/
def createHub (maxSessions : Nat) (hubs : List String) (id : String) :
    Except CreateErr (List String) :=
  if id ∈ hubs then Except.error CreateErr.duplicate
  else if 0 < maxSessions ∧ maxSessions ≤ hubs.length then
    Except.error CreateErr.capacity
  else Except.ok (hubs ++ [id])

/-- The registry after a creation attempt: the new map on success; on
failure the map was never touched (the source returns before any write). -/
def hubsAfter (r : Except CreateErr (List String)) (old : List String) :
    List String :=
  match r with
  | .ok l => l
  | .error _ => old

/-- C7: with a positive configured maximum and a registry within bounds,
creating a fresh identifier when exactly the maximum are live fails with
the capacity error and leaves the registry unchanged; creating an
existing identifier fails with the duplicate error and leaves the
registry unchanged; and a creation attempt never pushes the registry
size past the maximum. -/
theorem createHub_capacity_and_duplicate (maxSessions : Nat)
    (hubs : List String) (id : String) (hmax : 0 < maxSessions)
    (hle : hubs.length ≤ maxSessions) :
    (id ∉ hubs → hubs.length = maxSessions →
      createHub maxSessions hubs id = Except.error CreateErr.capacity ∧
      hubsAfter (createHub maxSessions hubs id) hubs = hubs) ∧
    (id ∈ hubs →
      createHub maxSessions hubs id = Except.error CreateErr.duplicate ∧
      hubsAfter (createHub maxSessions hubs id) hubs = hubs) ∧
    (hubsAfter (createHub maxSessions hubs id) hubs).length ≤ maxSessions := by
  refine ⟨?_, ?_, ?_⟩
  · intro hnmem hlen
    have hcap : 0 < maxSessions ∧ maxSessions ≤ hubs.length := ⟨hmax, hlen ▸ le_refl _⟩
    rw [createHub, if_neg hnmem, if_pos hcap]
    exact ⟨rfl, rfl⟩
  · intro hmem
    rw [createHub, if_pos hmem]
    exact ⟨rfl, rfl⟩
  · by_cases hmem : id ∈ hubs
    · rw [createHub, if_pos hmem]
      exact hle
    · by_cases hcap : 0 < maxSessions ∧ maxSessions ≤ hubs.length
      · rw [createHub, if_neg hmem, if_pos hcap]
        exact hle
      · rw [createHub, if_neg hmem, if_neg hcap]
        simp only [hubsAfter, List.length_append, List.length_singleton]
        omega

/-- Witness for C7 with maximum 2 and registry at capacity: a fresh
identifier is refused for capacity, an existing one as a duplicate, and
the registry is unchanged in both cases. -/
theorem createHub_capacity_and_duplicate_witness :
    (createHub 2 ["a", "b"] "c" = Except.error CreateErr.capacity ∧
      hubsAfter (createHub 2 ["a", "b"] "c") ["a", "b"] = ["a", "b"]) ∧
    (createHub 2 ["a", "b"] "a" = Except.error CreateErr.duplicate ∧
      hubsAfter (createHub 2 ["a", "b"] "a") ["a", "b"] = ["a", "b"]) :=
  ⟨(createHub_capacity_and_duplicate 2 ["a", "b"] "c" (by decide)
      (by decide)).1 (by decide) (by decide),
   (createHub_capacity_and_duplicate 2 ["a", "b"] "a" (by decide)
      (by decide)).2.1 (by decide)⟩

/-! ## Debug-info construction and the setBreakpoint command path (claim C9)

`NewDebugInfo` in internal/debuginfo/debug_info_linux.go lines 17-59
fixes `Target.Path` once, to the source file of the entry of the
target's `main.main` function (`symTable.PCToLine(symTable.LookupFunc
("main.main").Entry)`).  The hub's `handleCommand` (internal/ws/hub.go
lines 310-330) forwards both the filename and the line of a
setBreakpoint command, but the debugger's trap-stop dispatch
(debugger.go lines 379-388) extracts only the line, and
`SetBreakpoint(line)` resolves the pc as
`LineToPC(Target.Path, line)`. -/

/-- The symbol/line table the debug-info constructor consumes, with the
entry pc that `LookupFunc` returns for main.main. -/
structure SymTable where
  pcToLine : Nat → String × Nat × String
  lineToPC : String → Nat → Option Nat
  mainMainEntry : Nat

/-- `NewDebugInfo`: the target path is the source file of the pc at
main.main's entry; the line queries delegate to the symbol table. -/
def newDebugInfo (st : SymTable) : DebugInfo where
  targetPath := (st.pcToLine st.mainMainEntry).1
  lineToPC := st.lineToPC
  pcToLine := st.pcToLine

/-- The payload the hub packs for a setBreakpoint command
(`map[string]interface\x7b\x7d{"line": ..., "filename": ...}`). -/
structure SetBpData where
  filename : String
  line : Nat

/-- The debugger's handling of a setBreakpoint command payload: only the
line field is extracted (debugger.go lines 379-388); the filename field
is never read, and `SetBreakpoint` receives the line alone. -/
def dispatchSetBreakpoint (di : DebugInfo) (dta : SetBpData) (s : DbgState) :
    MemResult :=
  setBreakpoint di dta.line s

/-- The pc both `SetBreakpoint` and `ClearBreakpoint` act on for a given
line: `LineToPC(Target.Path, line)`. -/
def bpResolvePC (di : DebugInfo) (line : Nat) : Option Nat :=
  di.lineToPC di.targetPath line

/-- C9: the filename carried by a setBreakpoint command is ignored - two
commands differing only in filename produce identical results on every
state - and the pc acted on is always resolved against the target path
that `NewDebugInfo` fixed to the source file of main.main's entry pc, so
breakpoints are only ever resolved against the target's main source
file. -/
theorem setBreakpoint_ignores_filename (st : SymTable) (f1 f2 : String)
    (line : Nat) (s : DbgState) :
    dispatchSetBreakpoint (newDebugInfo st) ⟨f1, line⟩ s =
      dispatchSetBreakpoint (newDebugInfo st) ⟨f2, line⟩ s ∧
    bpResolvePC (newDebugInfo st) line =
      st.lineToPC (st.pcToLine st.mainMainEntry).1 line :=
  ⟨rfl, rfl⟩

/-! ## WebSocket attach (claim C10)

`getOrCreateSession` in internal/ws/server.go lines 63-123: after the
upgrade, read the `session` query parameter; when absent, mint a fresh
identifier and create the session through `CreateHub`; when present,
look it up and decline (closing the connection) if unknown; then attach
the endpoint and enqueue a `sessionStarted` ack carrying the session
identifier and `PID: 0` into the endpoint's fresh outbound queue. -/

/-- Messages the attach handler can enqueue on the new endpoint's queue. -/
inductive OutMsg where
  | sessionStarted (sessionID : String) (pid : Nat)
deriving DecidableEq

/-- Result of the attach handler: the connection is declined and closed,
or the endpoint is attached to a session, with the outbound-queue
content the handler enqueued and the registry after the attach. -/
inductive AttachOutcome where
  | declined
  | attached (sessionID : String) (queue : List OutMsg) (hubs : List String)
deriving DecidableEq

/-- `getOrCreateSession` over the registry model: `sessionQuery` is the
`session` query parameter (empty string when absent, as in the source),
`freshID` the identifier the server would mint.  On either successful
path the handler enqueues the `sessionStarted` ack with pid 0 as the
first message of the endpoint's newly created queue. -/
def getOrCreateSession (maxSessions : Nat) (hubs : List String)
    (sessionQuery : String) (freshID : String) : AttachOutcome :=
  if sessionQuery ≠ "" then
    if sessionQuery ∈ hubs then
      AttachOutcome.attached sessionQuery [OutMsg.sessionStarted sessionQuery 0] hubs
    else AttachOutcome.declined
  else
    match createHub maxSessions hubs freshID with
    | .ok hubs2 =>
        AttachOutcome.attached freshID [OutMsg.sessionStarted freshID 0] hubs2
    | .error _ => AttachOutcome.declined

/-- C10: on every successful attach - whether the identifier was minted
fresh or named an existing session - the first message the handler
enqueues on the new endpoint's outbound queue is the `sessionStarted`
ack carrying that session's identifier and pid 0. -/
theorem attach_first_message_sessionStarted (maxSessions : Nat)
    (hubs : List String) (sessionQuery freshID sid : String)
    (queue : List OutMsg) (hubs2 : List String)
    (h : getOrCreateSession maxSessions hubs sessionQuery freshID =
      AttachOutcome.attached sid queue hubs2) :
    queue.head? = some (OutMsg.sessionStarted sid 0) := by
  unfold getOrCreateSession at h
  by_cases hq : sessionQuery ≠ ""
  · rw [if_pos hq] at h
    by_cases hmem : sessionQuery ∈ hubs
    · rw [if_pos hmem] at h
      cases h
      rfl
    · rw [if_neg hmem] at h
      exact absurd h (by simp)
  · rw [if_neg hq] at h
    cases hcr : createHub maxSessions hubs freshID with
    | ok l =>
        rw [hcr] at h
        cases h
        rfl
    | error e =>
        rw [hcr] at h
        exact absurd h (by simp)

/-- Witness for C10 on both attach paths: a fresh mint into an empty
registry, and a join of an existing session. -/
theorem attach_first_message_sessionStarted_witness :
    ([OutMsg.sessionStarted "u1" 0] : List OutMsg).head? =
      some (OutMsg.sessionStarted "u1" 0) ∧
    ([OutMsg.sessionStarted "s" 0] : List OutMsg).head? =
      some (OutMsg.sessionStarted "s" 0) :=
  ⟨attach_first_message_sessionStarted 100 [] "" "u1" "u1"
      [OutMsg.sessionStarted "u1" 0] ["u1"] (by decide),
   attach_first_message_sessionStarted 100 ["s"] "s" "x" "s"
      [OutMsg.sessionStarted "s" 0] ["s"] (by decide)⟩
